import Mathlib

/-!
Verification of the request/response pipeline of the AI-powered medical
chatbot backend.  The repository has two near-duplicate Flask handler
modules, main.py and app.py; each is embedded here in its own namespace
(MainPy, AppPy).  Python strings are modelled as List Char, Python dicts
returned by the handlers as association lists from String keys to
List Char values, and the external collaborators (the PIL image verifier,
the base64 codec and the outbound HTTP gateway) as explicit parameters of
the embedded functions: a GatewayOutcome value per outbound call, a Bool
for the verification result, and a List Char for the base64-encoded image.
-/

/-- Python str whitespace characters relevant here (ASCII subset used by
str.strip with no argument). -/
def pyIsSpace (c : Char) : Bool :=
  c = ' ' || c = '\t' || c = '\n' || c = '\r' || c = '\x0b' || c = '\x0c'

/-- Membership in the bullet-marker set of the Python call
ln.lstrip of the four characters star, dash, bullet, space
(main.py line 30). -/
def isMarker (c : Char) : Bool :=
  c = '*' || c = '-' || c = '•' || c = ' '

/-- Python s.lstrip() for default whitespace. -/
def lstripWs (l : List Char) : List Char := l.dropWhile pyIsSpace

/-- Python s.rstrip() for default whitespace. -/
def rstripWs (l : List Char) : List Char := (l.reverse.dropWhile pyIsSpace).reverse

/-- Python s.strip() for default whitespace: ln.strip() in main.py line 25. -/
def pyStrip (l : List Char) : List Char := rstripWs (lstripWs l)

/-- Python ln.lstrip with the bullet-marker character set (main.py line 30). -/
def lstripMarkers (l : List Char) : List Char := l.dropWhile isMarker

/-- Python s.split on a single newline character: text.split in
main.py line 25.  The empty string splits to one empty field. -/
def splitNl : List Char → List (List Char)
  | [] => [[]]
  | c :: rest =>
    if c = '\n' then [] :: splitNl rest
    else
      match splitNl rest with
      | l :: ls => (c :: l) :: ls
      | [] => [[c]]

/-- Python backslash-n .join of a list of strings (main.py line 33
and line 94). -/
def joinNl : List (List Char) → List Char
  | [] => []
  | [l] => l
  | l :: ls => l ++ '\n' :: joinNl ls

/-- Outcome of one outbound HTTP POST to the LLM gateway, as seen by the
Python requests call sites: an HTTP response with a status code and the
extracted message content, a requests Timeout exception, or another
requests RequestException (connectivity fault). -/
inductive GatewayOutcome
  | http (status : Nat) (content : List Char)
  | timeout
  | netError
deriving DecidableEq

/-- One part of a chat message content list: a text part or an image-url
part, mirroring the JSON dicts built in both modules. -/
inductive ContentPart
  | text (s : List Char)
  | imageUrl (url : List Char)
deriving DecidableEq

/-- A chat-style message as built by the request builders: a role string
and an ordered content list. -/
structure ChatMessage where
  role : String
  content : List ContentPart
deriving DecidableEq

/-- One outbound call issued to the gateway: the model identifier and the
message sequence posted. -/
structure Call where
  model : String
  messages : List ChatMessage
deriving DecidableEq

/-- The JSON dict a process function returns, as an association list:
every return site in the source produces a one-key dict keyed by the
string response or the string error. -/
abbrev FResp := List (String × List Char)

/-- A dict of the single key response. -/
def respOf (s : List Char) : FResp := [("response", s)]

/-- A dict of the single key error. -/
def errOf (s : List Char) : FResp := [("error", s)]

/-- The exact invalid-image message of main.py line 45 and app.py
line 31. -/
def invalidImageMsg : List Char :=
  "We couldn\x27t read that image. Please upload a valid JPG or PNG.".toList

/-- The exact timeout message of main.py lines 87 and 135. -/
def timeoutMsg : List Char := "Request timed out. Please try again.".toList

/-- The exact connectivity-fault message of main.py lines 89 and 137. -/
def netErrorMsg : List Char :=
  "We couldn\x27t reach the AI service. Please check your connection and try again.".toList

/-- The first model identifier, queried on every path of both modules. -/
def scoutModel : String := "meta-llama/llama-4-scout-17b-16e-instruct"

/-- The second model identifier, queried on the image path of main.py. -/
def maverickModel : String := "meta-llama/llama-4-maverick-17b-128e-instruct"

namespace MainPy

/-- The loop body of main.py lines 26 to 32: strip each split line, skip
falsy lines, strip bullet markers, keep the survivors re-prefixed with
dash and space. -/
def bulletLines (text : List Char) : List (List Char) :=
  ((splitNl text).map pyStrip).filterMap fun ln =>
    if ln = [] then none
    else
      let clean := lstripMarkers ln
      if clean = [] then none else some ('-' :: ' ' :: clean)

/-- main.py lines 23 to 35: the function of one underscore and the name
format_as_bullets.  The try/except wrapper has no failing path in this
pure embedding; the fallback of line 33 returns the original text when no
bullet line survives.  The Python expression text or the empty string
equals text for every string text. -/
def format_as_bullets (text : List Char) : List Char :=
  let bl := bulletLines text
  if bl = [] then text else joinNl bl

/-- The system message of main.py lines 48 to 51 and 105 to 108. -/
def sysMessage : ChatMessage :=
  ⟨"system",
   [.text ("You are a helpful medical assistant. Respond ONLY in concise bullet points. Each point should be a short, clear sentence.".toList)]⟩

/-- The message sequence built by process_text, main.py lines 104 to
113. -/
def textMessages (query : List Char) : List ChatMessage :=
  [sysMessage,
   ⟨"user",
    [.text ("Please answer in concise bullet points.\n\n".toList ++ query)]⟩]

/-- The message sequence built by process_image, main.py lines 47 to 63:
the system message, then a user message with a text part and an image-url
part carrying a jpeg data URL around the base64 payload. -/
def imageMessages (query encodedImage : List Char) : List ChatMessage :=
  [sysMessage,
   ⟨"user",
    [.text ("Please answer in concise bullet points.\n\n".toList ++ query),
     .imageUrl ("data:image/jpeg;base64,".toList ++ encodedImage)]⟩]

/-- make_api_request, main.py lines 65 to 89: on HTTP 200 the extracted
content, on another status a user-safe HTTP-error string, on a Timeout or
RequestException the fixed user-safe strings.  Every branch returns a
plain string, never a dict. -/
def make_api_request (o : GatewayOutcome) : List Char :=
  match o with
  | .http s content =>
    if s = 200 then content
    else ("The AI service returned an error (HTTP " ++ Nat.repr s
          ++ "). Please try again.").toList
  | .timeout => timeoutMsg
  | .netError => netErrorMsg

/-- process_image, main.py lines 37 to 100.  Parameters stand for the
external collaborators: encodedImage for the base64 encoding of the image
bytes, verifyOk for the PIL verification outcome on those bytes, o1 and o2
for the gateway outcomes of the scout and maverick calls.  The second
component lists the outbound calls issued.  On verification failure the
function returns the exact invalid-image dict and makes no outbound call;
otherwise both model variants are queried, their result strings joined by
a newline, bullet-formatted, and returned under the response key. -/
def process_image (verifyOk : Bool) (encodedImage query : List Char)
    (o1 o2 : GatewayOutcome) : FResp × List Call :=
  if !verifyOk then (errOf invalidImageMsg, [])
  else
    let msgs := imageMessages query encodedImage
    let scout := make_api_request o1
    let maverick := make_api_request o2
    let combined := scout ++ '\n' :: maverick
    (respOf (format_as_bullets combined), [⟨scoutModel, msgs⟩, ⟨maverickModel, msgs⟩])

/-- process_text, main.py lines 102 to 140: one outbound call; on HTTP 200
the bullet-formatted content under the response key, on another status an
HTTP-error message under the error key, on Timeout or RequestException
the corresponding fixed message under the error key. -/
def process_text (query : List Char) (o : GatewayOutcome) : FResp × List Call :=
  (match o with
   | .http s content =>
     if s = 200 then respOf (format_as_bullets content)
     else errOf ("The AI service returned an error (HTTP " ++ Nat.repr s
                 ++ "). Please try again.").toList
   | .timeout => errOf timeoutMsg
   | .netError => errOf netErrorMsg,
   [⟨scoutModel, textMessages query⟩])

/-- The analyze endpoint, main.py lines 146 to 169.  hasImageField is
whether the multipart form carries an image file field, filename its
filename, queryField the optional query form field, imageContent the
uploaded bytes.  The result triple is the JSON dict, the HTTP status and
the outbound calls issued. -/
def analyze (hasImageField : Bool) (filename : List Char)
    (queryField : Option (List Char)) (imageContent : List Nat)
    (verifyOk : Bool) (encodedImage : List Char)
    (o1 o2 : GatewayOutcome) : FResp × Nat × List Call :=
  if !hasImageField then
    (errOf ("Please attach an image to analyze.".toList), 400, [])
  else if filename = [] then
    (errOf ("Please choose an image file to upload.".toList), 400, [])
  else
    let query := queryField.getD
      "Please analyze this medical image and explain your findings.".toList
    if imageContent.length > 10 * 1024 * 1024 then
      (errOf ("The image is too large (max 10MB). Please upload a smaller file.".toList),
       400, [])
    else
      let r := process_image verifyOk encodedImage query o1 o2
      (r.1, 200, r.2)

/-- The chat endpoint, main.py lines 179 to 207.  rawText is the inbound
text field before stripping; imageDataUrl the optional image data URL
(none for an absent field, some empty for an empty string, both falsy in
Python); splitDecodeOk whether the comma split and base64 decode of the
data URL succeed.  Results returned through jsonify of a process result
carry HTTP status 200. -/
def chat (rawText : List Char) (imageDataUrl : Option (List Char))
    (splitDecodeOk : Bool) (verifyOk : Bool) (encodedImage : List Char)
    (o1 o2 : GatewayOutcome) : FResp × Nat × List Call :=
  let text := pyStrip rawText
  if text = [] ∧ imageDataUrl.getD [] = [] then
    (errOf ("Please provide a message or an image to analyze.".toList), 400, [])
  else if imageDataUrl.getD [] ≠ [] then
    if !splitDecodeOk then
      (errOf ("Invalid image data. Please re-upload the image.".toList), 400, [])
    else
      let q := if text = [] then
        "Please analyze this medical image and explain your findings.".toList
        else text
      let r := process_image verifyOk encodedImage q o1 o2
      (r.1, 200, r.2)
  else
    let r := process_text text o1
    (r.1, 200, r.2)

end MainPy

namespace AppPy

/-- The message sequence built by process_image in app.py lines 33 to 43:
a single user message, no system message. -/
def imageMessages (query encodedImage : List Char) : List ChatMessage :=
  [⟨"user",
    [.text ("Analyze this medical image and answer: ".toList ++ query),
     .imageUrl ("data:image/jpeg;base64,".toList ++ encodedImage)]⟩]

/-- The message sequence built by process_text in app.py lines 72 to 77:
a single user message, no system message. -/
def textMessages (query : List Char) : List ChatMessage :=
  [⟨"user", [.text query]⟩]

/-- The generic catch-all message of app.py lines 66 to 68 and 100 to
102: a Timeout or RequestException raised by requests.post is caught only
by the generic except clause. -/
def genericErrorMsg : List Char := "Something went wrong. Please try again.".toList

/-- process_image, app.py lines 23 to 68.  decodeOk stands for the comma
split and base64 decode of the inbound data URL succeeding; a failure
there is caught by the outer except and yields the generic error with no
outbound call.  After a passing image verification exactly one call is
issued; on HTTP 200 the raw content is returned unformatted under the
response key, on another status an API-error string under the error key,
and on a Timeout or RequestException the generic message. -/
def process_image (decodeOk verifyOk : Bool) (encodedImage query : List Char)
    (o : GatewayOutcome) : FResp × List Call :=
  if !decodeOk then (errOf genericErrorMsg, [])
  else if !verifyOk then (errOf invalidImageMsg, [])
  else
    (match o with
     | .http s content =>
       if s = 200 then respOf content
       else errOf ("API error: " ++ Nat.repr s).toList
     | .timeout => errOf genericErrorMsg
     | .netError => errOf genericErrorMsg,
     [⟨scoutModel, imageMessages query encodedImage⟩])

/-- process_text, app.py lines 70 to 102: one outbound call; raw content
on HTTP 200, an API-error string otherwise, and the generic message for a
Timeout or RequestException. -/
def process_text (query : List Char) (o : GatewayOutcome) : FResp × List Call :=
  (match o with
   | .http s content =>
     if s = 200 then respOf content
     else errOf ("API error: " ++ Nat.repr s).toList
   | .timeout => errOf genericErrorMsg
   | .netError => errOf genericErrorMsg,
   [⟨scoutModel, textMessages query⟩])

/-- The chat endpoint, app.py lines 174 to 194.  imageFile is the
optional uploaded file content; no size limit is enforced on it.  The
missing-input branch and every process result are returned through plain
jsonify, so they carry the Flask default HTTP status 200.  When an image
is present the endpoint itself builds a well-formed jpeg data URL, so the
decode step inside process_image succeeds. -/
def chat (rawText : List Char) (imageFile : Option (List Nat))
    (verifyOk : Bool) (encodedImage : List Char)
    (o : GatewayOutcome) : FResp × Nat × List Call :=
  let text := pyStrip rawText
  match imageFile with
  | none =>
    if text = [] then
      (errOf ("Please provide a message or image".toList), 200, [])
    else
      let r := process_text text o
      (r.1, 200, r.2)
  | some _ =>
    let q := if text = [] then ("What do you see in this image?".toList) else text
    let r := process_image true verifyOk encodedImage q o
    (r.1, 200, r.2)

end AppPy

/-!  Claim theorems. -/

/-- C4: the bullet formatter applied to the spec example, the literal
string star-space-foo, newline, newline, bar, newline, dash-space-baz,
returns exactly dash-foo, dash-bar, dash-baz joined by single newlines:
lines are split on newlines, trimmed, blank lines dropped, leading
markers stripped, and each survivor re-prefixed with dash and space. -/
theorem c4_bullet_example :
    MainPy.format_as_bullets ("* foo\n\nbar\n- baz".toList)
      = "- foo\n- bar\n- baz".toList := by decide

/-- C2: when PIL image verification fails, process_image of main.py and
process_image of app.py (after a successful data-URL decode) both return
the exact invalid-image error dict and issue no outbound call. -/
theorem c2_invalid_image_no_call (encodedImage query : List Char)
    (o1 o2 o : GatewayOutcome) :
    MainPy.process_image false encodedImage query o1 o2
        = (errOf invalidImageMsg, []) ∧
      AppPy.process_image true false encodedImage query o
        = (errOf invalidImageMsg, []) :=
  ⟨rfl, rfl⟩

/-- C2 witness: the pair of equalities at concrete inputs. -/
theorem c2_invalid_image_no_call_witness :
    MainPy.process_image false [] ("q".toList) .timeout .timeout
        = (errOf invalidImageMsg, []) ∧
      AppPy.process_image true false [] ("q".toList) .timeout
        = (errOf invalidImageMsg, []) :=
  c2_invalid_image_no_call [] ("q".toList) .timeout .timeout .timeout

/-- C6: when no line survives the bullet loop, the formatter returns the
original input text unchanged, not the empty string. -/
theorem c6_fallback_original (s : List Char) (h : MainPy.bulletLines s = []) :
    MainPy.format_as_bullets s = s := by
  simp [MainPy.format_as_bullets, h]

/-- C6 witness: a string of only markers and whitespace produces no
bullet line and is returned unchanged. -/
theorem c6_fallback_original_witness :
    MainPy.bulletLines (" *- • ".toList) = []
      ∧ MainPy.format_as_bullets (" *- • ".toList) = " *- • ".toList :=
  ⟨by decide, c6_fallback_original (" *- • ".toList) (by decide)⟩

/-- C1 counterexample: on the image path of main.py, a timeout of both
per-model calls puts the timeout message into the response field, not the
error field: the result dict has a response key holding the two bulleted
timeout lines and no error key, contradicting the claim that the timeout
message appears in the error field and never in the response field. -/
theorem c1_counterexample :
    MainPy.process_image true [] ("q".toList) .timeout .timeout
        = (respOf ("- Request timed out. Please try again.\n- Request timed out. Please try again.".toList),
           [⟨scoutModel, MainPy.imageMessages ("q".toList) []⟩,
            ⟨maverickModel, MainPy.imageMessages ("q".toList) []⟩]) ∧
      (MainPy.process_image true [] ("q".toList) .timeout .timeout).1.lookup ("error")
        = none := by
  exact ⟨by decide, by decide⟩

/-- C1 amended: a gateway timeout in process_text of main.py yields the
exact timeout message under the error key and nothing else; on the image
path of main.py the per-model timeout strings are folded into the
bulleted response field, with no error key; in app.py a timeout is caught
by the generic except clause and yields the generic error message on both
the text and image paths. -/
theorem c1_amended (q enc : List Char) :
    (MainPy.process_text q .timeout).1 = errOf timeoutMsg ∧
      (MainPy.process_image true enc q .timeout .timeout).1
        = respOf (MainPy.format_as_bullets (timeoutMsg ++ '\n' :: timeoutMsg)) ∧
      (MainPy.process_image true enc q .timeout .timeout).1.lookup ("error") = none ∧
      (AppPy.process_text q .timeout).1 = errOf AppPy.genericErrorMsg ∧
      (AppPy.process_image true true enc q .timeout).1 = errOf AppPy.genericErrorMsg :=
  ⟨rfl, rfl, rfl, rfl, rfl⟩

/-- C3 counterexample: the chat endpoint of app.py, given neither text
nor image, returns its error dict with the Flask default HTTP status 200,
not 400, contradicting the claim for that handler. -/
theorem c3_counterexample :
    AppPy.chat [] none true [] (.http 200 [])
        = (errOf ("Please provide a message or image".toList), 200, []) ∧
      (200 : Nat) ≠ 400 :=
  ⟨rfl, by decide⟩

/-- C3 amended: with neither a non-empty stripped text nor an image, the
chat endpoint of main.py returns its missing-input error dict with HTTP
400 and no outbound call, while the chat endpoint of app.py returns its
missing-input error dict with the default HTTP 200 and no outbound
call. -/
theorem c3_amended (rawText : List Char) (url : Option (List Char))
    (sdk vOk : Bool) (enc : List Char) (o1 o2 o : GatewayOutcome)
    (h1 : pyStrip rawText = []) (h2 : url.getD [] = []) :
    MainPy.chat rawText url sdk vOk enc o1 o2
        = (errOf ("Please provide a message or an image to analyze.".toList), 400, []) ∧
      AppPy.chat rawText none vOk enc o
        = (errOf ("Please provide a message or image".toList), 200, []) := by
  constructor
  · simp [MainPy.chat, h1, h2]
  · simp [AppPy.chat, h1]

/-- C3 witness: the amended statement at whitespace-only text and an
absent image. -/
theorem c3_amended_witness :
    MainPy.chat ("  ".toList) none true true [] .timeout .timeout
        = (errOf ("Please provide a message or an image to analyze.".toList), 400, []) ∧
      AppPy.chat ("  ".toList) none true [] .timeout
        = (errOf ("Please provide a message or image".toList), 200, []) := by
  exact c3_amended ("  ".toList) none true true [] .timeout .timeout .timeout
    (by decide) (by decide)

/-- An uploaded image one byte over the 10 MiB limit. -/
def bigImage : List Nat := List.replicate (10 * 1024 * 1024 + 1) 0

/-- The length of the oversize upload. -/
theorem bigImage_length : bigImage.length = 10 * 1024 * 1024 + 1 :=
  List.length_replicate _ _

/-- C7 counterexample: the chat endpoint of app.py accepts an image
upload but enforces no size limit: for content one byte over 10 MiB it
still issues the outbound gateway call and answers with HTTP 200, so the
oversize rejection does not hold on every endpoint that accepts an image
upload. -/
theorem c7_counterexample :
    bigImage.length > 10 * 1024 * 1024 ∧
      AppPy.chat ("hi".toList) (some bigImage) true [] (.http 200 ("ok".toList))
        = (respOf ("ok".toList), 200,
           [⟨scoutModel, AppPy.imageMessages ("hi".toList) []⟩]) ∧
      (200 : Nat) ≠ 400 := by
  refine ⟨?_, rfl, by decide⟩
  rw [bigImage_length]
  exact Nat.lt_succ_self _

/-- C7 amended: only the analyze endpoint of main.py enforces the 10 MiB
limit: with an image field and a non-empty filename, content over
10 MiB is rejected there with the size error dict and HTTP 400 before
any outbound call; the chat endpoint of app.py applies no size check and
issues the outbound call regardless of content length. -/
theorem c7_amended (filename : List Char) (qf : Option (List Char))
    (content : List Nat) (vOk : Bool) (enc : List Char)
    (o1 o2 : GatewayOutcome)
    (hname : filename ≠ []) (hsize : content.length > 10 * 1024 * 1024) :
    MainPy.analyze true filename qf content vOk enc o1 o2
      = (errOf ("The image is too large (max 10MB). Please upload a smaller file.".toList),
         400, []) := by
  simp [MainPy.analyze, hname, hsize]

/-- C7 witness: the amended statement at a concrete oversize upload. -/
theorem c7_amended_witness :
    MainPy.analyze true ("f".toList) none bigImage true [] .timeout .timeout
      = (errOf ("The image is too large (max 10MB). Please upload a smaller file.".toList),
         400, []) :=
  c7_amended ("f".toList) none bigImage true [] .timeout .timeout
    (by decide) (by rw [bigImage_length]; exact Nat.lt_succ_self _)

/-- The role sequences of the outbound calls issued by a process
function. -/
def roleSeqs (calls : List Call) : List (List String) :=
  calls.map fun c => c.messages.map ChatMessage.role

/-- C8 counterexample: process_text of app.py issues its call with a
message sequence consisting of a single user-role message: the first
message has role user, not system, contradicting the claim for that
module. -/
theorem c8_counterexample :
    roleSeqs (AppPy.process_text ("hi".toList) (.http 200 [])).2 = [["user"]] ∧
      ("user" : String) ≠ "system" :=
  ⟨rfl, by decide⟩

/-- C8 amended: in main.py every outbound call of process_text and of
process_image (after a passing verification) carries a message sequence
beginning with the system-role message followed by the user message; in
app.py both process functions send a single user-role message with no
system message. -/
theorem c8_amended (q enc : List Char) (o o1 o2 o3 : GatewayOutcome) :
    roleSeqs (MainPy.process_text q o).2 = [["system", "user"]] ∧
      roleSeqs (MainPy.process_image true enc q o1 o2).2
        = [["system", "user"], ["system", "user"]] ∧
      roleSeqs (AppPy.process_text q o3).2 = [["user"]] ∧
      roleSeqs (AppPy.process_image true true enc q o3).2 = [["user"]] :=
  ⟨rfl, rfl, rfl, rfl⟩

/-- A result dict carries exactly one of the keys response and error. -/
def exclusiveKeys (r : FResp) : Prop :=
  (r.lookup ("response") = none ∧ r.lookup ("error") ≠ none) ∨
  (r.lookup ("response") ≠ none ∧ r.lookup ("error") = none)

/-- A one-key response dict is exclusive. -/
theorem exclusiveKeys_respOf (s : List Char) : exclusiveKeys (respOf s) :=
  Or.inr ⟨Option.some_ne_none s, rfl⟩

/-- A one-key error dict is exclusive. -/
theorem exclusiveKeys_errOf (s : List Char) : exclusiveKeys (errOf s) :=
  Or.inl ⟨rfl, Option.some_ne_none s⟩

/-- C9: every externally visible result of process_text and process_image,
in both modules, for every verification outcome, decode outcome and
gateway outcome, is a dict carrying exactly one of the keys response and
error: never both and never neither. -/
theorem c9_exclusive_result_keys (q enc : List Char) (v d : Bool)
    (o o1 o2 o3 : GatewayOutcome) :
    exclusiveKeys (MainPy.process_text q o).1 ∧
      exclusiveKeys (MainPy.process_image v enc q o1 o2).1 ∧
      exclusiveKeys (AppPy.process_text q o3).1 ∧
      exclusiveKeys (AppPy.process_image d v enc q o3).1 := by
  refine ⟨?_, ?_, ?_, ?_⟩
  · cases o with
    | http s c =>
      by_cases hs : s = 200 <;>
        simp only [MainPy.process_text, hs, if_pos, if_neg, ite_true, ite_false] <;>
        first
          | exact exclusiveKeys_respOf _
          | exact exclusiveKeys_errOf _
    | timeout => exact exclusiveKeys_errOf _
    | netError => exact exclusiveKeys_errOf _
  · cases v with
    | false => exact exclusiveKeys_errOf _
    | true => exact exclusiveKeys_respOf _
  · cases o3 with
    | http s c =>
      by_cases hs : s = 200 <;>
        simp only [AppPy.process_text, hs, ite_true, ite_false] <;>
        first
          | exact exclusiveKeys_respOf _
          | exact exclusiveKeys_errOf _
    | timeout => exact exclusiveKeys_errOf _
    | netError => exact exclusiveKeys_errOf _
  · cases d with
    | false => exact exclusiveKeys_errOf _
    | true =>
      cases v with
      | false => exact exclusiveKeys_errOf _
      | true =>
        cases o3 with
        | http s c =>
          by_cases hs : s = 200 <;>
            simp only [AppPy.process_image, hs, ite_true, ite_false] <;>
            first
              | exact exclusiveKeys_respOf _
              | exact exclusiveKeys_errOf _
        | timeout => exact exclusiveKeys_errOf _
        | netError => exact exclusiveKeys_errOf _

/-!  Structural lemmas about the line splitter and joiner, used for the
idempotence and line-shape properties of the bullet formatter. -/

/-- The splitter never returns an empty field list. -/
theorem splitNl_ne_nil (s : List Char) : splitNl s ≠ [] := by
  induction s with
  | nil => simp [splitNl]
  | cons c rest ih =>
    by_cases hc : c = '\n'
    · simp [splitNl, hc]
    · simp only [splitNl, if_neg hc]
      cases h : splitNl rest with
      | nil => exact absurd h ih
      | cons l ls => simp

/-- No field produced by the splitter contains a newline. -/
theorem mem_splitNl_no_newline {s l : List Char} (h : l ∈ splitNl s) :
    '\n' ∉ l := by
  induction s generalizing l with
  | nil =>
    simp only [splitNl, List.mem_singleton] at h
    subst h; simp
  | cons c rest ih =>
    by_cases hc : c = '\n'
    · simp only [splitNl, if_pos hc, List.mem_cons] at h
      rcases h with h | h
      · subst h; simp
      · exact ih h
    · simp only [splitNl, if_neg hc] at h
      cases hr : splitNl rest with
      | nil => exact absurd hr (splitNl_ne_nil rest)
      | cons l0 ls =>
        rw [hr, List.mem_cons] at h
        rcases h with h | h
        · subst h
          intro hmem
          rcases List.mem_cons.mp hmem with h | h
          · exact hc h.symm
          · exact ih (hr ▸ List.mem_cons_self l0 ls) h
        · exact ih (hr ▸ List.mem_cons_of_mem l0 h)

/-- A newline-free string splits to the single field it is. -/
theorem splitNl_of_no_newline {l : List Char} (h : '\n' ∉ l) :
    splitNl l = [l] := by
  induction l with
  | nil => rfl
  | cons c rest ih =>
    have hc : c ≠ '\n' := fun hcc => h (hcc ▸ List.mem_cons_self c rest)
    have hrest : '\n' ∉ rest := fun hm => h (List.mem_cons_of_mem c hm)
    simp only [splitNl, if_neg hc, ih hrest]

/-- Splitting a newline-free field, a newline and a remainder yields the
field followed by the split of the remainder. -/
theorem splitNl_append_newline {l s : List Char} (h : '\n' ∉ l) :
    splitNl (l ++ '\n' :: s) = l :: splitNl s := by
  induction l with
  | nil => simp [splitNl]
  | cons c rest ih =>
    have hc : c ≠ '\n' := fun hcc => h (hcc ▸ List.mem_cons_self c rest)
    have hrest : '\n' ∉ rest := fun hm => h (List.mem_cons_of_mem c hm)
    simp only [List.cons_append, splitNl, if_neg hc, List.append_eq, ih hrest]

/-- Splitting the newline join of a non-empty list of newline-free fields
recovers the fields. -/
theorem splitNl_joinNl {ls : List (List Char)} (hne : ls ≠ [])
    (h : ∀ l ∈ ls, '\n' ∉ l) : splitNl (joinNl ls) = ls := by
  induction ls with
  | nil => exact absurd rfl hne
  | cons l rest ih =>
    cases rest with
    | nil =>
      simp only [joinNl]
      exact splitNl_of_no_newline (h l (List.mem_cons_self l []))
    | cons l2 rest2 =>
      have hl : '\n' ∉ l := h l (List.mem_cons_self _ _)
      have hrec : ∀ x ∈ l2 :: rest2, '\n' ∉ x :=
        fun x hx => h x (List.mem_cons_of_mem l hx)
      show splitNl (l ++ '\n' :: joinNl (l2 :: rest2)) = l :: l2 :: rest2
      rw [splitNl_append_newline hl, ih (by simp) hrec]

/-- The first element surviving a dropWhile fails the predicate. -/
theorem dropWhile_head_false {α : Type} {p : α → Bool} :
    ∀ {l : List α} {c : α} {t : List α}, l.dropWhile p = c :: t → p c = false := by
  intro l
  induction l with
  | nil => intro c t h; cases h
  | cons a l ih =>
    intro c t h
    by_cases ha : p a
    · rw [List.dropWhile_cons_of_pos ha] at h
      exact ih h
    · rw [List.dropWhile_cons_of_neg ha] at h
      cases h
      simpa using ha

/-- dropWhile is the identity when the head already fails the
predicate. -/
theorem dropWhile_eq_self_of_head {α : Type} {p : α → Bool} {l : List α}
    (h : ∀ c, l.head? = some c → p c = false) : l.dropWhile p = l := by
  cases l with
  | nil => rfl
  | cons a t =>
    have := h a rfl
    rw [List.dropWhile_cons_of_neg (by simp [this])]

/-- A member of a dropWhile result is a member of the original list. -/
theorem mem_of_mem_dropWhile {α : Type} {p : α → Bool} {l : List α} {c : α}
    (h : c ∈ l.dropWhile p) : c ∈ l := by
  induction l with
  | nil => simp at h
  | cons a t ih =>
    by_cases ha : p a
    · rw [List.dropWhile_cons_of_pos ha] at h
      exact List.mem_cons_of_mem a (ih h)
    · rw [List.dropWhile_cons_of_neg ha] at h
      exact h

/-- The original list is some front extended by its dropWhile. -/
theorem dropWhile_decomp {α : Type} (p : α → Bool) (l : List α) :
    ∃ t, l = t ++ l.dropWhile p := by
  induction l with
  | nil => exact ⟨[], rfl⟩
  | cons a l ih =>
    by_cases ha : p a
    · obtain ⟨t, ht⟩ := ih
      refine ⟨a :: t, ?_⟩
      rw [List.dropWhile_cons_of_pos ha, List.cons_append, ← ht]
    · exact ⟨[], by rw [List.dropWhile_cons_of_neg ha]; rfl⟩

/-- The head of an append with a non-empty left part is the head of the
left part. -/
theorem head?_append_of_ne_nil {α : Type} {x y : List α} (h : x ≠ []) :
    (x ++ y).head? = x.head? := by
  cases x with
  | nil => exact absurd rfl h
  | cons a t => rfl

/-- A member of the stripped line is a member of the line. -/
theorem mem_of_mem_pyStrip {l : List Char} {c : Char} (h : c ∈ pyStrip l) :
    c ∈ l := by
  unfold pyStrip rstripWs lstripWs at h
  rw [List.mem_reverse] at h
  have h2 := mem_of_mem_dropWhile h
  rw [List.mem_reverse] at h2
  exact mem_of_mem_dropWhile h2

/-- The reversed stripped line starts with a non-whitespace character
when non-empty. -/
theorem pyStrip_reverse_head {l : List Char} {c : Char}
    (h : (pyStrip l).reverse.head? = some c) : pyIsSpace c = false := by
  unfold pyStrip rstripWs at h
  rw [List.reverse_reverse] at h
  cases hd : (lstripWs l).reverse.dropWhile pyIsSpace with
  | nil => rw [hd] at h; cases h
  | cons a t =>
    rw [hd] at h
    cases h
    exact dropWhile_head_false hd

/-- Every produced bullet line is dash, space, then a non-empty cleaned
remainder whose first character is no marker, whose last character is no
whitespace, and which contains no newline. -/
theorem bulletLines_shape {s b : List Char} (h : b ∈ MainPy.bulletLines s) :
    ∃ clean, b = '-' :: ' ' :: clean ∧ clean ≠ [] ∧
      (∀ c, clean.head? = some c → isMarker c = false) ∧
      (∀ c, clean.reverse.head? = some c → pyIsSpace c = false) ∧
      '\n' ∉ clean := by
  unfold MainPy.bulletLines at h
  rw [List.mem_filterMap] at h
  obtain ⟨ln, hln, hb⟩ := h
  rw [List.mem_map] at hln
  obtain ⟨raw, hraw, rfl⟩ := hln
  by_cases h1 : pyStrip raw = []
  · rw [if_pos h1] at hb; cases hb
  · rw [if_neg h1] at hb
    by_cases h2 : lstripMarkers (pyStrip raw) = []
    · simp only [h2, if_pos] at hb
      cases hb
    · simp only [if_neg h2] at hb
      cases hb
      refine ⟨lstripMarkers (pyStrip raw), rfl, h2, ?_, ?_, ?_⟩
      · intro c hc
        unfold lstripMarkers at hc
        cases hd : (pyStrip raw).dropWhile isMarker with
        | nil => rw [hd] at hc; cases hc
        | cons a t =>
          rw [hd] at hc
          cases hc
          exact dropWhile_head_false hd
      · intro c hc
        obtain ⟨t, ht⟩ := dropWhile_decomp isMarker (pyStrip raw)
        have hrev : (pyStrip raw).reverse
            = (lstripMarkers (pyStrip raw)).reverse ++ t.reverse := by
          conv_lhs => rw [ht]
          rw [List.reverse_append]; rfl
        have hnn : (lstripMarkers (pyStrip raw)).reverse ≠ [] := by
          simpa using h2
        have : (pyStrip raw).reverse.head? = some c := by
          rw [hrev, head?_append_of_ne_nil hnn]
          exact hc
        exact pyStrip_reverse_head this
      · intro hmem
        exact mem_splitNl_no_newline hraw
          (mem_of_mem_pyStrip (mem_of_mem_dropWhile hmem))

/-- Stripping whitespace from a produced bullet line changes nothing:
it starts with a dash and its cleaned remainder ends in
non-whitespace. -/
theorem pyStrip_bullet {clean : List Char} (hne : clean ≠ [])
    (hlast : ∀ c, clean.reverse.head? = some c → pyIsSpace c = false) :
    pyStrip ('-' :: ' ' :: clean) = '-' :: ' ' :: clean := by
  have hrevne : clean.reverse ≠ [] := by simpa using hne
  obtain ⟨c0, rest, hc0⟩ := List.exists_cons_of_ne_nil hrevne
  have hc0f : pyIsSpace c0 = false := hlast c0 (by rw [hc0]; rfl)
  unfold pyStrip lstripWs rstripWs
  rw [List.dropWhile_cons_of_neg (by decide)]
  have hrev : ('-' :: ' ' :: clean).reverse = clean.reverse ++ [' ', '-'] := by
    simp
  rw [hrev, hc0, List.cons_append,
    List.dropWhile_cons_of_neg (by simp [hc0f]), ← List.cons_append, ← hc0,
    ← hrev, List.reverse_reverse]

/-- Stripping markers from a produced bullet line recovers exactly its
cleaned remainder. -/
theorem lstripMarkers_bullet {clean : List Char}
    (hhead : ∀ c, clean.head? = some c → isMarker c = false) :
    lstripMarkers ('-' :: ' ' :: clean) = clean := by
  unfold lstripMarkers
  rw [List.dropWhile_cons_of_pos (by decide), List.dropWhile_cons_of_pos (by decide)]
  exact dropWhile_eq_self_of_head hhead

/-- A filterMap over a map that reproduces each element reproduces the
list. -/
theorem filterMap_map_of_id {α : Type} (g : α → α) (f : α → Option α)
    (l : List α) (h : ∀ b ∈ l, f (g b) = some b) : (l.map g).filterMap f = l := by
  induction l with
  | nil => rfl
  | cons a l ih =>
    rw [List.map_cons, List.filterMap_cons, h a (List.mem_cons_self a l),
      ih fun b hb => h b (List.mem_cons_of_mem a hb)]

/-- Running the bullet loop on the newline join of its own non-empty
output reproduces the output. -/
theorem bulletLines_joinNl {s : List Char} (hne : MainPy.bulletLines s ≠ []) :
    MainPy.bulletLines (joinNl (MainPy.bulletLines s)) = MainPy.bulletLines s := by
  have hnl : ∀ b ∈ MainPy.bulletLines s, '\n' ∉ b := by
    intro b hb
    obtain ⟨clean, rfl, _, _, _, hnn⟩ := bulletLines_shape hb
    intro hmem
    rcases List.mem_cons.mp hmem with h | h
    · cases h
    · rcases List.mem_cons.mp h with h | h
      · cases h
      · exact hnn h
  show ((splitNl (joinNl (MainPy.bulletLines s))).map pyStrip).filterMap _
      = MainPy.bulletLines s
  rw [splitNl_joinNl hne hnl]
  apply filterMap_map_of_id
  intro b hb
  obtain ⟨clean, rfl, hcne, hhead, hlast, _⟩ := bulletLines_shape hb
  rw [pyStrip_bullet hcne hlast]
  rw [if_neg (by simp)]
  simp only [lstripMarkers_bullet hhead]
  rw [if_neg hcne]

/-- When at least one bullet line is produced the formatter returns their
newline join. -/
theorem format_eq_joinNl {s : List Char} (h : MainPy.bulletLines s ≠ []) :
    MainPy.format_as_bullets s = joinNl (MainPy.bulletLines s) := by
  simp only [MainPy.format_as_bullets, if_neg h]

/-- C5: the bullet formatter is idempotent whenever at least one bullet
line is produced: formatting the formatted output changes nothing. -/
theorem c5_format_idempotent (s : List Char) (h : MainPy.bulletLines s ≠ []) :
    MainPy.format_as_bullets (MainPy.format_as_bullets s)
      = MainPy.format_as_bullets s := by
  rw [format_eq_joinNl h]
  have h2 : MainPy.bulletLines (joinNl (MainPy.bulletLines s)) ≠ [] := by
    rw [bulletLines_joinNl h]; exact h
  rw [format_eq_joinNl h2, bulletLines_joinNl h]

/-- C5 witness: idempotence at a concrete two-line input. -/
theorem c5_format_idempotent_witness :
    MainPy.bulletLines ("* foo\nbar".toList) ≠ [] ∧
      MainPy.format_as_bullets (MainPy.format_as_bullets ("* foo\nbar".toList))
        = MainPy.format_as_bullets ("* foo\nbar".toList) :=
  ⟨by decide, c5_format_idempotent ("* foo\nbar".toList) (by decide)⟩

/-- C10: whenever the formatter produces at least one bullet line, every
line of its output starts with dash and space, followed by a non-empty
remainder whose first character is no marker, so no output line is
blank; the embedded formatter is a total function of its input by
construction. -/
theorem c10_output_line_shape (s : List Char) (h : MainPy.bulletLines s ≠ [])
    (l : List Char) (hl : l ∈ splitNl (MainPy.format_as_bullets s)) :
    ∃ rest, l = '-' :: ' ' :: rest ∧ rest ≠ [] ∧
      ∀ c, rest.head? = some c → isMarker c = false := by
  rw [format_eq_joinNl h] at hl
  have hnl : ∀ b ∈ MainPy.bulletLines s, '\n' ∉ b := by
    intro b hb
    obtain ⟨clean, rfl, _, _, _, hnn⟩ := bulletLines_shape hb
    intro hmem
    rcases List.mem_cons.mp hmem with hx | hx
    · cases hx
    · rcases List.mem_cons.mp hx with hx | hx
      · cases hx
      · exact hnn hx
  rw [splitNl_joinNl h hnl] at hl
  obtain ⟨clean, rfl, hcne, hhead, _, _⟩ := bulletLines_shape hl
  exact ⟨clean, rfl, hcne, hhead⟩

/-- C10 witness: the output line shape at a concrete input. -/
theorem c10_output_line_shape_witness :
    ∃ rest, "- foo".toList = '-' :: ' ' :: rest ∧ rest ≠ [] ∧
      ∀ c, rest.head? = some c → isMarker c = false :=
  c10_output_line_shape ("* foo".toList) (by decide) ("- foo".toList) (by decide)
